import Mathlib

/-!
Verification development for the `detectoria` repository (single source file
`src/app.py`): a Flask app that uploads a document, extracts its text, asks
the Gemini LLM how likely the text is AI-generated, and falls back to a local
heuristic scorer when the LLM path is unusable.

The Python code is shallowly embedded below.  Python strings are Lean
`String`s (operations modelled over the ASCII whitespace set, which covers
every string the code manipulates); Python `dict`s appearing in responses are
association lists `List (String × Json)` with unique keys; floating-point
statistics are modelled with exact rationals; the external collaborators
(`json.loads`, the Gemini client, the document parsers) are explicit
parameters of the functions that call them, so that every outcome of the
external world is quantified over.
-/

/-! ## Python string primitives (ASCII model) -/

/-- Characters treated as whitespace by Python's `str.split()` / `str.strip()`
(ASCII fragment: space, tab, newline, carriage return, vertical tab, form feed). -/
def pyIsSpace (c : Char) : Bool :=
  c = (' ') || c = ('\t') || c = ('\n') || c = ('\r') || c = ('\x0b') || c = ('\x0c')

/-- Worker for `pySplit`: `acc` holds the current (reversed) in-progress token. -/
def pySplitGo : List Char → List Char → List String
  | [], acc => if acc = [] then [] else [String.mk acc.reverse]
  | c :: cs, acc =>
    if pyIsSpace c then
      (if acc = [] then pySplitGo cs [] else String.mk acc.reverse :: pySplitGo cs [])
    else pySplitGo cs (c :: acc)

/-- Python `s.split()` with no argument: split on runs of whitespace, dropping
empty tokens. -/
def pySplit (s : String) : List String := pySplitGo s.data []

/-- Python `s.strip()` on a character list: drop whitespace from both ends. -/
def stripList (l : List Char) : List Char :=
  ((l.dropWhile pyIsSpace).reverse.dropWhile pyIsSpace).reverse

/-- Python `s.strip()`. -/
def pyStrip (s : String) : String := String.mk (stripList s.data)

/-- Python `s.lower()` (ASCII model). -/
def pyLower (s : String) : String := String.mk (s.data.map Char.toLower)

/-- Python `s.capitalize()` (ASCII model): first character upper-cased, the
rest lower-cased. -/
def pyCapitalize (s : String) : String :=
  match s.data with
  | [] => ("")
  | c :: cs => String.mk (Char.toUpper c :: cs.map Char.toLower)

/-- Python `prefix in s` would be `pyStartsWith`: `s.startswith(p)`. -/
def pyStartsWith (s p : String) : Bool := List.isPrefixOf p.data s.data

/-- Python `s.endswith(p)`. -/
def pyEndsWith (s p : String) : Bool := List.isSuffixOf p.data s.data

/-- Membership of `needle` as a contiguous sublist of the second argument. -/
def isSubOf (needle : List Char) : List Char → Bool
  | [] => List.isPrefixOf needle []
  | c :: cs => List.isPrefixOf needle (c :: cs) || isSubOf needle cs

/-- Python `needle in hay` for strings: substring test. -/
def pyIn (needle hay : String) : Bool := isSubOf needle.data hay.data

/-- Worker for `pyReplace`.  The fuel argument starts at the length of the
subject list and strictly dominates it throughout, so the `0` case is never
reached on the intended calls; all call sites use a non-empty pattern, which
matches the guard. -/
def pyReplaceGo (old new : List Char) : ℕ → List Char → List Char
  | _, [] => []
  | 0, l => l
  | fuel + 1, c :: cs =>
    if old ≠ [] ∧ List.isPrefixOf old (c :: cs) then
      new ++ pyReplaceGo old new fuel (cs.drop (old.length - 1))
    else c :: pyReplaceGo old new fuel cs

/-- Python `s.replace(old, new)`: replace every occurrence, scanning left to
right, non-overlapping (modelled for non-empty `old`, the only case the code
uses). -/
def pyReplace (s old new : String) : String :=
  String.mk (pyReplaceGo old.data new.data s.data.length s.data)

/-- Python `s.count(c)` for a single-character needle: number of occurrences
of that character. -/
def pyCountChar (s : String) (c : Char) : ℕ := List.count c s.data

/-! ## JSON values and Python dict access -/

/-- JSON values as produced by `json.loads` / consumed by `jsonify`.  Numbers
are exact rationals (the float rounding of CPython is immaterial to every
claim proved below); an `obj` is a Python `dict`, so its keys are unique. -/
inductive Json where
  | null
  | bool (b : Bool)
  | num (q : ℚ)
  | str (s : String)
  | arr (xs : List Json)
  | obj (fields : List (String × Json))

/-- Python `d.get(k, default)` on a dict modelled as an association list with
unique keys. -/
def dictGet : List (String × Json) → String → Json → Json
  | [], _, d => d
  | (k', v) :: rest, k, d => if k' = k then v else dictGet rest k d

/-- Python type name of a JSON value, used to build exception texts. -/
def jsonTypeName : Json → String
  | .null => ("NoneType")
  | .bool _ => ("bool")
  | .num _ => ("number")
  | .str _ => ("str")
  | .arr _ => ("list")
  | .obj _ => ("dict")

/-- Numeric view of a JSON value as used by Python's `<` against an `int`:
numbers compare directly, `bool` is an `int` subtype (`True = 1`,
`False = 0`), everything else raises `TypeError`. -/
def jsonToRat : Json → Option ℚ
  | .num q => some q
  | .bool b => some (if b then 1 else 0)
  | _ => none

/-! ## The Report entity (src/app.py lines 330-347 shape) -/

/-- The analysis Report dictionary built by `analisis_fallback`; the
LLM-derived report of `transformar_respuesta_gemini` is kept as a raw
association list because it copies arbitrary JSON values through. -/
structure Report where
  porcentaje : ℚ
  color : String
  label : String
  indicadores : List String
  preguntas : List String
  filename : String
  analizado_con_ia : Bool
  nivel_educativo : String
  error_info : String
  longitud_texto : ℕ
  palabras_unicas : ℕ
  densidad_vocabulario : ℚ
deriving DecidableEq

/-- The Report as the JSON object `jsonify`/`json.dumps` serialises, in the
key order of the source dict literal. -/
def Report.toObj (r : Report) : List (String × Json) :=
  [(("porcentaje"), .num r.porcentaje),
   (("color"), .str r.color),
   (("label"), .str r.label),
   (("indicadores"), .arr (r.indicadores.map .str)),
   (("preguntas"), .arr (r.preguntas.map .str)),
   (("filename"), .str r.filename),
   (("analizado_con_ia"), .bool r.analizado_con_ia),
   (("nivel_educativo"), .str r.nivel_educativo),
   (("error_info"), .str r.error_info),
   (("longitud_texto"), .num r.longitud_texto),
   (("palabras_unicas"), .num r.palabras_unicas),
   (("densidad_vocabulario"), .num r.densidad_vocabulario)]

/-! ## Text statistics shared by both pipeline paths
(src/app.py line 157 and line 346, textually identical expressions) -/

/-- Python `round(q, 1)` modelled on exact rationals: round `10*q` to the
nearest integer, divide by ten.  (CPython breaks ties to even on binary
floats; no claim below depends on the tie direction.) -/
def round1 (q : ℚ) : ℚ := ((round (10 * q) : ℤ) : ℚ) / 10

/-- `round((len(set(texto.split())) / len(texto.split()) * 100), 1) if
texto.split() else 0`. -/
def densidad_vocabulario (texto : String) : ℚ :=
  if pySplit texto = [] then 0
  else round1 (((pySplit texto).dedup.length : ℚ) / ((pySplit texto).length : ℚ) * 100)

/-- The percentage → (color, label) tier map shared (textually duplicated) by
`transformar_respuesta_gemini` (lines 134-142) and `analisis_fallback`
(lines 327-328). -/
def tierOf (p : ℚ) : String × String :=
  if p < 50 then (("green"), ("Bajo"))
  else if p < 75 then (("yellow"), ("Medio"))
  else (("red"), ("Alto"))

/-! ## Heuristic Scorer: `analisis_fallback` (src/app.py lines 292-347) -/

/-- The level-specific indicator appended at lines 320-325. -/
def nivelIndicador (nivel_educativo : String) : String :=
  if nivel_educativo = ("basica-1-4") ∨ nivel_educativo = ("basica-5-8") then
    ("Análisis básico para nivel ") ++ nivel_educativo
  else if nivel_educativo = ("medio-1-2") ∨ nivel_educativo = ("medio-3-4") then
    ("Análisis para educación media")
  else ("Análisis automático básico")

/-- `analisis_fallback(texto, nivel_educativo)`: the sequential
indicator-list/percentage accumulation of lines 294-325 is embedded as a
chain of accumulator updates in source order. -/
def analisis_fallback (texto nivel_educativo : String) : Report :=
  let acc0 : List String × ℕ := ([], 50)
  let acc1 := if texto.length < 100 then (acc0.1 ++ [("Texto muy corto")], acc0.2 + 20) else acc0
  let acc2 := if pyCountChar texto ('.') < 3 then (acc1.1 ++ [("Pocos puntos (posible copia)")], acc1.2 + 15) else acc1
  let acc3 := if (pySplit texto).dedup.length < 15 then (acc2.1 ++ [("Vocabulario limitado")], acc2.2 + 15) else acc2
  let palabras := pySplit texto
  let acc4 :=
    if 10 < palabras.length ∧ ((palabras.dedup.length : ℚ) / (palabras.length : ℚ) < 3 / 5) then
      (acc3.1 ++ [("Mucha repetición de palabras")], acc3.2 + 20)
    else acc3
  let indicadores := acc4.1 ++ [nivelIndicador nivel_educativo]
  let porcentaje := acc4.2
  let nivelTag := if porcentaje < 50 then ("bajo") else if porcentaje < 75 then ("medio") else ("alto")
  let color := if nivelTag = ("bajo") then ("green") else if nivelTag = ("medio") then ("yellow") else ("red")
  { porcentaje := (min porcentaje 100 : ℕ)
    color := color
    label := pyCapitalize nivelTag
    indicadores := if indicadores = [] then [("Análisis automático básico")] else indicadores
    preguntas := [("¿Puedes explicar el tema principal con tus propias palabras?"),
                  ("Dame un ejemplo relacionado con tu entorno."),
                  ("¿Qué parte te costó más entender de este trabajo?")]
    filename := ("")
    analizado_con_ia := false
    nivel_educativo := nivel_educativo
    error_info := ("Análisis automático (fallback)")
    longitud_texto := texto.length
    palabras_unicas := (pySplit texto).dedup.length
    densidad_vocabulario := densidad_vocabulario texto }

/-! ## Response cleaning: `limpiar_respuesta_gemini` (src/app.py lines 102-117) -/

/-- `limpiar_respuesta_gemini(response_text)`: empty input returns empty; a
response starting with a JSON code fence has every occurrence of the two
fence markers replaced away (Python `str.replace` replaces all occurrences);
then surrounding whitespace is stripped and the literal two-character escape
sequences backslash-n / backslash-t become real newline / tab. -/
def limpiar_respuesta_gemini (response_text : String) : String :=
  if response_text = ("") then ("")
  else
    let r1 :=
      if pyStartsWith response_text ("```json") then
        pyReplace (pyReplace response_text ("```json") ("")) ("```") ("")
      else response_text
    let r2 := pyStrip r1
    pyReplace (pyReplace r2 ("\\n") ("\n")) ("\\t") ("\t")

/-- Reading of claim C6's words, for comparison with the source function:
strip one leading `json`-fence marker and one trailing fence marker (only at
the ends), then trim and unescape exactly as the source does. -/
def limpiarClaimReading (response_text : String) : String :=
  if response_text = ("") then ("")
  else
    let r1 :=
      if pyStartsWith response_text ("```json") then
        let afterLead := String.mk (response_text.data.drop (("```json").data.length))
        if pyEndsWith afterLead ("```") then
          String.mk (afterLead.data.take (afterLead.data.length - (("```").data.length)))
        else afterLead
      else response_text
    let r2 := pyStrip r1
    pyReplace (pyReplace r2 ("\\n") ("\n")) ("\\t") ("\t")

/-! ## Error classification: `diagnosticar_error_gemini` (src/app.py lines 78-99) -/

/-- `diagnosticar_error_gemini(error)`: classify an exception by substring
inspection of its lower-cased message. -/
def diagnosticar_error_gemini (error : String) : String :=
  let error_str := pyLower error
  if pyIn ("quota") error_str || pyIn ("limit") error_str then
    ("Cuota de API alcanzada - Has excedido el límite de requests")
  else if pyIn ("invalid") error_str && pyIn ("key") error_str then
    ("API Key inválida - Verifica tu clave de Google AI")
  else if pyIn ("unauthorized") error_str || pyIn ("401") error_str then
    ("No autorizado - API Key incorrecta o expirada")
  else if pyIn ("rate") error_str && pyIn ("limit") error_str then
    ("Límite de velocidad alcanzado - Demasiadas requests por minuto")
  else if pyIn ("network") error_str || pyIn ("connection") error_str then
    ("Error de conexión - Problema de red o internet")
  else if pyIn ("timeout") error_str then
    ("Timeout - La request tardó demasiado en responder")
  else if pyIn ("json") error_str then
    ("Error de formato JSON - Respuesta malformada de Gemini")
  else if pyIn ("model") error_str then
    ("Modelo no disponible - Error con el modelo de IA")
  else ("Error desconocido: ") ++ error

/-! ## Response normalisation: `transformar_respuesta_gemini`
(src/app.py lines 120-164) -/

/-- Exception text raised by `data.get(...)` when the parsed JSON is not a
dict (`AttributeError`).  The exact wording is a stand-in for CPython's. -/
def attrErrMsg (data : Json) : String :=
  jsonTypeName data ++ (" object has no attribute get")

/-- Exception text raised by `porcentaje < 50` when the extracted value is
not a number (`TypeError`).  The exact wording is a stand-in for CPython's. -/
def cmpErrMsg (pj : Json) : String :=
  ("unsupported comparison between ") ++ jsonTypeName pj ++ (" and int")

/-- The `try` body of `transformar_respuesta_gemini`: parse (`json.loads` is
the abstracted `loads` collaborator), pull the three fields with defaults,
derive the tier from the percentage, and assemble the full result dict in
source key order.  Any step that raises in Python is an `error` here. -/
def transformarCore (loads : String → Except String Json)
    (respuesta_gemini texto nivel_educativo : String) :
    Except String (List (String × Json)) :=
  match loads respuesta_gemini with
  | .error e => .error e
  | .ok data =>
    match data with
    | .obj fields =>
      let pj := dictGet fields ("porcentaje") (.num 50)
      let indicadores := dictGet fields ("indicadores") (.arr [])
      let preguntas := dictGet fields ("preguntas") (.arr [])
      match jsonToRat pj with
      | none => .error (cmpErrMsg pj)
      | some p =>
        let tier := tierOf p
        .ok [(("porcentaje"), pj),
             (("color"), .str tier.1),
             (("label"), .str tier.2),
             (("indicadores"), indicadores),
             (("preguntas"), preguntas),
             (("filename"), .str ("")),
             (("analizado_con_ia"), .bool true),
             (("nivel_educativo"), .str nivel_educativo),
             (("error_info"), .str ("Análisis exitoso con IA")),
             (("longitud_texto"), .num texto.length),
             (("palabras_unicas"), .num (pySplit texto).dedup.length),
             (("densidad_vocabulario"), .num (densidad_vocabulario texto))]
    | other => .error (attrErrMsg other)

/-- `transformar_respuesta_gemini(respuesta_gemini, texto, nivel_educativo)`.
The Python function returns `json.dumps` of the result dict and the caller
immediately `json.loads` it back; that round trip is the identity on these
dicts, so the embedding passes the dict itself. -/
def transformar_respuesta_gemini (loads : String → Except String Json)
    (respuesta_gemini texto nivel_educativo : String) :
    List (String × Json) × Bool × String :=
  match transformarCore loads respuesta_gemini texto nivel_educativo with
  | .ok dict => (dict, true, ("Análisis exitoso con IA"))
  | .error e =>
    ((analisis_fallback texto nivel_educativo).toObj, false,
     ("Error transformando respuesta: ") ++ e)

/-! ## Orchestrator: `analizar_con_gemini` (src/app.py lines 167-289) -/

/-- Everything the external Gemini call can come back with, as observed by
the `try` block of `analizar_con_gemini`: an exception carrying a message, a
`None` response, a response without a `text` attribute, a `None` text, or an
actual text. -/
inductive GeminiOutcome where
  | raised (msg : String)
  | respNone
  | respNoText
  | textNone
  | text (t : String)

/-- `analizar_con_gemini(texto, nivel_educativo)`.  The ambient state the
Python function reads (the module-level `api_key`) and the result of the
single `model.generate_content` call are explicit parameters.  Returns
`(resultado, analizado_con_ia, error_info)` with `resultado` the dict that
the Python version carries as a JSON string. -/
def analizar_con_gemini (loads : String → Except String Json) (api_key : String)
    (outcome : GeminiOutcome) (texto nivel_educativo : String) :
    List (String × Json) × Bool × String :=
  if pyStrip texto = ("") then
    ((analisis_fallback texto nivel_educativo).toObj, false, ("Texto vacío"))
  else if api_key = ("") ∨ api_key = ("tu_api_key_aqui") then
    ((analisis_fallback texto nivel_educativo).toObj, false, ("API Key no configurada"))
  else
    match outcome with
    | .raised msg =>
      ((analisis_fallback texto nivel_educativo).toObj, false, diagnosticar_error_gemini msg)
    | .respNone =>
      ((analisis_fallback texto nivel_educativo).toObj, false, ("Gemini devolvió respuesta vacía"))
    | .respNoText =>
      ((analisis_fallback texto nivel_educativo).toObj, false, ("Respuesta de Gemini no tiene texto"))
    | .textNone =>
      ((analisis_fallback texto nivel_educativo).toObj, false, ("Gemini devolvió respuesta vacía"))
    | .text t =>
      if t = ("") ∨ pyStrip t = ("") then
        ((analisis_fallback texto nivel_educativo).toObj, false, ("Gemini devolvió respuesta vacía"))
      else
        transformar_respuesta_gemini loads (limpiar_respuesta_gemini t) texto nivel_educativo
/-! ## Request Handler: `/analizar` endpoint (src/app.py lines 25-34, 363-478) -/

/-- `MAX_FILE_SIZE = 10 * 1024 * 1024` (10 MiB). -/
def MAX_FILE_SIZE : ℕ := 10 * 1024 * 1024

/-- `ALLOWED_EXTENSIONS` (a Python set; listed here in source order — only
membership is ever used). -/
def ALLOWED_EXTENSIONS : List String :=
  [(".txt"), (".docx"), (".pdf"), (".jpg"), (".jpeg"), (".png"), (".bmp"), (".tiff")]

/-- `allowed_file(filename)`: the lower-cased filename ends with one of the
allowed extensions. -/
def allowed_file (filename : String) : Bool :=
  ALLOWED_EXTENSIONS.any (fun ext => pyEndsWith (pyLower filename) ext)

/-- The multipart request as the handler reads it: `request.files.get("file")`
gives an optional upload carrying its filename and byte size (the size is
what `file.seek(0, 2); file.tell()` observes), and `request.form.get("nivel")`
gives an optional education-level string. -/
structure UploadReq where
  file : Option (String × ℕ)
  nivel : Option String

/-- An HTTP response as produced by `jsonify(body), status`. -/
inductive HttpResp where
  | json (status : ℕ) (body : List (String × Json))

/-- `jsonify({"error": msg}), code`. -/
def errResp (code : ℕ) (msg : String) : HttpResp :=
  .json code [(("error"), .str msg)]

/-- The short-circuit body returned when `extraer_texto` produced an empty
string (src/app.py lines 413-424). -/
def notDetectedBody (filename : String) : List (String × Json) :=
  [(("porcentaje"), .num 0),
   (("color"), .str ("gray")),
   (("label"), .str ("No detectado")),
   (("indicadores"), .arr [.str ("No se pudo extraer texto del documento")]),
   (("preguntas"), .arr []),
   (("filename"), .str filename),
   (("analizado_con_ia"), .bool false),
   (("error_info"), .str ("No se pudo extraer texto del documento"))]

/-- The inner `try` body of the handler after validation (src/app.py lines
400-464), starting from the extracted text.  `extraer_texto` and the
temp-file staging are the black-box collaborators; `texto` is whatever the
extractor returned.  The Python `json.loads(resultado)` re-parse of the
orchestrator's `json.dumps` output is the identity on these dicts and its
`except` branch is unreachable.  `label.capitalize()` would raise if the
dict's label were not a string; that raise is the `error` case, which the
outer handler maps to a 500. -/
def analizarProcess (filename nivel texto api_key : String)
    (loads : String → Except String Json) (outcome : GeminiOutcome) :
    Except String HttpResp :=
  if texto = ("") then .ok (.json 200 (notDetectedBody filename))
  else
    let res := analizar_con_gemini loads api_key outcome texto nivel
    let data := res.1
    let analizado_con_ia := res.2.1
    let error_info := res.2.2
    let porcentaje := dictGet data ("porcentaje") (.num 50)
    let labelJ := dictGet data ("label") (.str ("medio"))
    let color := dictGet data ("color") (.str ("gray"))
    match labelJ with
    | .str label =>
      .ok (.json 200
        [(("porcentaje"), porcentaje),
         (("color"), color),
         (("label"), .str (pyCapitalize label)),
         (("indicadores"), dictGet data ("indicadores") (.arr [])),
         (("preguntas"), dictGet data ("preguntas") (.arr [])),
         (("filename"), .str filename),
         (("analizado_con_ia"), .bool analizado_con_ia),
         (("nivel_educativo"), .str nivel),
         (("error_info"), .str error_info),
         (("longitud_texto"), dictGet data ("longitud_texto") (.num 0)),
         (("palabras_unicas"), dictGet data ("palabras_unicas") (.num 0)),
         (("densidad_vocabulario"), dictGet data ("densidad_vocabulario") (.num 0))])
    | other => .error (("capitalize not supported on ") ++ jsonTypeName other)

/-- The `/analizar` endpoint `analizar()` (src/app.py lines 363-478):
validation in source order, then the processing body; an exception escaping
the processing body becomes the 500-class `except` response of line 468. -/
def analizar (req : UploadReq) (texto api_key : String)
    (loads : String → Except String Json) (outcome : GeminiOutcome) : HttpResp :=
  match req.file with
  | none => errResp 400 ("No se seleccionó ningún archivo")
  | some (filename, file_size) =>
    if filename = ("") then errResp 400 ("No se seleccionó ningún archivo")
    else
      match req.nivel with
      | none => errResp 400 ("Por favor selecciona un nivel educativo")
      | some nivel =>
        if nivel = ("") then errResp 400 ("Por favor selecciona un nivel educativo")
        else if ¬ allowed_file filename then
          errResp 400 ("Tipo de archivo no permitido. Use .txt, .docx, .pdf, .jpg, .png")
        else if MAX_FILE_SIZE < file_size then
          errResp 400 ("Archivo demasiado grande. Máximo 10MB")
        else
          match analizarProcess filename nivel texto api_key loads outcome with
          | .ok resp => resp
          | .error e => errResp 500 (("Error procesando archivo: ") ++ e)

/-- The keys of a response body, in order. -/
def respFields (r : HttpResp) : List String :=
  match r with
  | .json _ body => body.map Prod.fst

/-- The body of a response. -/
def respBody (r : HttpResp) : List (String × Json) :=
  match r with
  | .json _ body => body

/-- The status code of a response. -/
def respStatus (r : HttpResp) : ℕ :=
  match r with
  | .json status _ => status

/-- The twelve Report fields of spec §3, in the key order every fully
populated response uses. -/
def reportKeys : List String :=
  [("porcentaje"), ("color"), ("label"), ("indicadores"), ("preguntas"),
   ("filename"), ("analizado_con_ia"), ("nivel_educativo"), ("error_info"),
   ("longitud_texto"), ("palabras_unicas"), ("densidad_vocabulario")]

/-! ## Helper lemmas -/

/-- The vocabulary density is bounded: it is a ratio of at most one, scaled
to a percentage and rounded to one decimal. -/
theorem densidad_bounds (texto : String) :
    0 ≤ densidad_vocabulario texto ∧ densidad_vocabulario texto ≤ 100 := by
  unfold densidad_vocabulario
  by_cases h : pySplit texto = []
  · simp [h]
  · rw [if_neg h]
    have ht : 0 < (pySplit texto).length := List.length_pos.mpr h
    have ht' : (0:ℚ) < ((pySplit texto).length : ℚ) := by exact_mod_cast ht
    have hu : (pySplit texto).dedup.length ≤ (pySplit texto).length :=
      (List.dedup_sublist _).length_le
    have hq0 : (0:ℚ) ≤ ((pySplit texto).dedup.length : ℚ) / ((pySplit texto).length : ℚ) * 100 := by
      positivity
    have hq100 : ((pySplit texto).dedup.length : ℚ) / ((pySplit texto).length : ℚ) * 100 ≤ 100 := by
      have : ((pySplit texto).dedup.length : ℚ) / ((pySplit texto).length : ℚ) ≤ 1 := by
        rw [div_le_one ht']
        exact_mod_cast hu
      nlinarith
    unfold round1
    constructor
    · have : (0:ℤ) ≤ round (10 * (((pySplit texto).dedup.length : ℚ) / ((pySplit texto).length : ℚ) * 100)) := by
        rw [round_eq]
        apply Int.floor_nonneg.mpr
        nlinarith
      have : (0:ℚ) ≤ ((round (10 * (((pySplit texto).dedup.length : ℚ) / ((pySplit texto).length : ℚ) * 100)) : ℤ) : ℚ) := by
        exact_mod_cast this
      linarith
    · have hz : round (10 * (((pySplit texto).dedup.length : ℚ) / ((pySplit texto).length : ℚ) * 100)) ≤ 1000 := by
        rw [round_eq]
        have hfl : (⌊(10 * (((pySplit texto).dedup.length : ℚ) / ((pySplit texto).length : ℚ) * 100) + 1/2 : ℚ)⌋ : ℤ) ≤ ⌊(2001/2 : ℚ)⌋ := by
          apply Int.floor_mono
          nlinarith
        have : (⌊(2001/2 : ℚ)⌋ : ℤ) = 1000 := by norm_num [Int.floor_eq_iff]
        omega
      have : ((round (10 * (((pySplit texto).dedup.length : ℚ) / ((pySplit texto).length : ℚ) * 100)) : ℤ) : ℚ) ≤ 1000 := by
        exact_mod_cast hz
      linarith

/-! ## Claims -/

/-- Claim C3: for every text and level, the Heuristic Scorer's percentage is
50 plus exactly the four fixed penalties (+20 for character length below 100,
+15 for fewer than three period characters, +15 for fewer than 15 distinct
whitespace tokens, +20 for more than 10 tokens with a distinct/total ratio
below 0.6), clamped to at most 100, and its indicator list is exactly the
triggered penalty indicators in that order followed by the one non-scoring
level-specific indicator. -/
theorem fallback_score_formula (texto nivel_educativo : String) :
    (analisis_fallback texto nivel_educativo).porcentaje =
      ((min (50 + (if texto.length < 100 then 20 else 0)
                + (if pyCountChar texto ('.') < 3 then 15 else 0)
                + (if (pySplit texto).dedup.length < 15 then 15 else 0)
                + (if 10 < (pySplit texto).length ∧
                      ((pySplit texto).dedup.length : ℚ) / ((pySplit texto).length : ℚ) < 3 / 5
                   then 20 else 0))
           100 : ℕ) : ℚ)
    ∧ (analisis_fallback texto nivel_educativo).indicadores =
      (if texto.length < 100 then [("Texto muy corto")] else [])
      ++ (if pyCountChar texto ('.') < 3 then [("Pocos puntos (posible copia)")] else [])
      ++ (if (pySplit texto).dedup.length < 15 then [("Vocabulario limitado")] else [])
      ++ (if 10 < (pySplit texto).length ∧
             ((pySplit texto).dedup.length : ℚ) / ((pySplit texto).length : ℚ) < 3 / 5
          then [("Mucha repetición de palabras")] else [])
      ++ [nivelIndicador nivel_educativo] := by
  by_cases h1 : texto.length < 100 <;>
    by_cases h2 : pyCountChar texto ('.') < 3 <;>
      by_cases h3 : (pySplit texto).dedup.length < 15 <;>
        by_cases h4 : 10 < (pySplit texto).length ∧
            ((pySplit texto).dedup.length : ℚ) / ((pySplit texto).length : ℚ) < 3 / 5 <;>
          simp only [analisis_fallback, h1, h2, h3, h4, if_true, if_false,
            ite_true, ite_false, List.nil_append, List.append_nil, List.cons_append,
            eq_self_iff_true, not_true, not_false_iff] <;>
            norm_num <;> simp

/-- Claim C9: the Heuristic Scorer is deterministic and side-effect-free:
its embedding reads nothing but its two arguments (unlike the orchestrator,
which needs the ambient API key and the network outcome as extra inputs), so
two runs on equal inputs return identical Reports. -/
theorem fallback_deterministic (t₁ t₂ n₁ n₂ : String)
    (ht : t₁ = t₂) (hn : n₁ = n₂) :
    analisis_fallback t₁ n₁ = analisis_fallback t₂ n₂ := by
  rw [ht, hn]

theorem fallback_deterministic_witness :
    analisis_fallback ("Hola mundo") ("superior") = analisis_fallback ("Hola mundo") ("superior") :=
  fallback_deterministic ("Hola mundo") ("Hola mundo") ("superior") ("superior") rfl rfl

/-- Claim C10: the Heuristic Scorer's percentage always lies in [50, 100],
so its color is never green and its label is never Bajo: the fallback path
only reports the Medium or High tier. -/
theorem fallback_percentage_at_least_fifty (texto nivel_educativo : String) :
    (50 ≤ (analisis_fallback texto nivel_educativo).porcentaje
      ∧ (analisis_fallback texto nivel_educativo).porcentaje ≤ 100)
    ∧ (analisis_fallback texto nivel_educativo).color ≠ ("green")
    ∧ (analisis_fallback texto nivel_educativo).label ≠ ("Bajo") := by
  by_cases h1 : texto.length < 100 <;>
    by_cases h2 : pyCountChar texto ('.') < 3 <;>
      by_cases h3 : (pySplit texto).dedup.length < 15 <;>
        by_cases h4 : 10 < (pySplit texto).length ∧
            ((pySplit texto).dedup.length : ℚ) / ((pySplit texto).length : ℚ) < 3 / 5 <;>
          simp only [analisis_fallback, h1, h2, h3, h4, if_true, if_false,
            ite_true, ite_false] <;>
            norm_num [pyCapitalize] <;> decide

/-- Claim C4: color and label are the pure tier function of percentage —
[0,50) is (green, Bajo), [50,75) is (yellow, Medio), [75,100] is (red, Alto)
— and both pipeline paths set them through exactly that function of their
percentage, never independently. -/
theorem tier_pure_function_of_percentage :
    (∀ p : ℚ,
      (0 ≤ p → p < 50 → tierOf p = (("green"), ("Bajo")))
      ∧ (50 ≤ p → p < 75 → tierOf p = (("yellow"), ("Medio")))
      ∧ (75 ≤ p → p ≤ 100 → tierOf p = (("red"), ("Alto"))))
    ∧ (∀ texto nivel_educativo : String,
        ((analisis_fallback texto nivel_educativo).color,
         (analisis_fallback texto nivel_educativo).label) =
          tierOf (analisis_fallback texto nivel_educativo).porcentaje)
    ∧ (∀ (loads : String → Except String Json)
        (respuesta texto nivel_educativo : String) (dict : List (String × Json)),
        transformarCore loads respuesta texto nivel_educativo = .ok dict →
        ∃ p : ℚ,
          jsonToRat (dictGet dict ("porcentaje") (.num 50)) = some p
          ∧ dictGet dict ("color") .null = .str (tierOf p).1
          ∧ dictGet dict ("label") .null = .str (tierOf p).2) := by
  refine ⟨?_, ?_, ?_⟩
  · intro p
    refine ⟨fun h0 h50 => ?_, fun h50 h75 => ?_, fun h75 h100 => ?_⟩
    · simp only [tierOf]
      rw [if_pos h50]
    · simp only [tierOf]
      rw [if_neg (by linarith), if_pos h75]
    · simp only [tierOf]
      rw [if_neg (by linarith), if_neg (by linarith)]
  · intro texto nivel_educativo
    by_cases h1 : texto.length < 100 <;>
      by_cases h2 : pyCountChar texto ('.') < 3 <;>
        by_cases h3 : (pySplit texto).dedup.length < 15 <;>
          by_cases h4 : 10 < (pySplit texto).length ∧
              ((pySplit texto).dedup.length : ℚ) / ((pySplit texto).length : ℚ) < 3 / 5 <;>
            simp only [analisis_fallback, h1, h2, h3, h4, if_true, if_false,
              ite_true, ite_false] <;>
              decide
  · intro loads respuesta texto nivel_educativo dict h
    unfold transformarCore at h
    split at h
    · exact absurd h (by simp)
    split at h
    · simp only [] at h
      split at h
      · exact absurd h (by simp)
      next p hp =>
        rw [Except.ok.injEq] at h
        subst h
        exact ⟨p, hp, rfl, rfl⟩
    · exact absurd h (by simp)

/-- A stub `json.loads` collaborator returning an empty JSON object, used to
instantiate hypotheses at a concrete input. -/
def loadsW : String → Except String Json := fun _ => .ok (.obj [])

/-- The result dict `transformarCore loadsW ("r") ("hola") ("x")` produces. -/
def dictW : List (String × Json) :=
  [(("porcentaje"), .num 50),
   (("color"), .str ("yellow")),
   (("label"), .str ("Medio")),
   (("indicadores"), .arr []),
   (("preguntas"), .arr []),
   (("filename"), .str ("")),
   (("analizado_con_ia"), .bool true),
   (("nivel_educativo"), .str ("x")),
   (("error_info"), .str ("Análisis exitoso con IA")),
   (("longitud_texto"), .num (("hola").length : ℚ)),
   (("palabras_unicas"), .num ((pySplit ("hola")).dedup.length : ℚ)),
   (("densidad_vocabulario"), .num (densidad_vocabulario ("hola")))]

theorem tier_pure_function_witness :
    tierOf 40 = (("green"), ("Bajo"))
    ∧ ((analisis_fallback ("hola") ("x")).color, (analisis_fallback ("hola") ("x")).label)
        = tierOf (analisis_fallback ("hola") ("x")).porcentaje
    ∧ ∃ p : ℚ,
        jsonToRat (dictGet dictW ("porcentaje") (.num 50)) = some p
        ∧ dictGet dictW ("color") .null = .str (tierOf p).1
        ∧ dictGet dictW ("label") .null = .str (tierOf p).2 :=
  ⟨(tier_pure_function_of_percentage.1 40).1 (by norm_num) (by norm_num),
   tier_pure_function_of_percentage.2.1 ("hola") ("x"),
   tier_pure_function_of_percentage.2.2 loadsW ("r") ("hola") ("x") dictW rfl⟩

/-- Claim C5: the vocabulary density reported by both paths equals
`round(unique_words / total_words * 100, 1)` over the whitespace tokens of
the original extracted text, is 0 when there are no tokens, and always lies
in [0, 100]. -/
theorem density_formula (texto nivel_educativo : String) :
    (analisis_fallback texto nivel_educativo).densidad_vocabulario = densidad_vocabulario texto
    ∧ (∀ (loads : String → Except String Json) (respuesta : String)
        (dict : List (String × Json)),
        transformarCore loads respuesta texto nivel_educativo = .ok dict →
        dictGet dict ("densidad_vocabulario") .null = .num (densidad_vocabulario texto))
    ∧ (pySplit texto = [] → densidad_vocabulario texto = 0)
    ∧ (pySplit texto ≠ [] → densidad_vocabulario texto =
        round1 (((pySplit texto).dedup.length : ℚ) / ((pySplit texto).length : ℚ) * 100))
    ∧ 0 ≤ densidad_vocabulario texto ∧ densidad_vocabulario texto ≤ 100 := by
  refine ⟨rfl, ?_, ?_, ?_, densidad_bounds texto⟩
  · intro loads respuesta dict h
    unfold transformarCore at h
    split at h
    · exact absurd h (by simp)
    split at h
    · simp only [] at h
      split at h
      · exact absurd h (by simp)
      rw [Except.ok.injEq] at h
      subst h
      rfl
    · exact absurd h (by simp)
  · intro h
    simp [densidad_vocabulario, h]
  · intro h
    simp [densidad_vocabulario, h]

theorem density_formula_witness :
    (analisis_fallback ("a b") ("x")).densidad_vocabulario = densidad_vocabulario ("a b")
    ∧ densidad_vocabulario ("a b") =
        round1 (((pySplit ("a b")).dedup.length : ℚ) / ((pySplit ("a b")).length : ℚ) * 100)
    ∧ densidad_vocabulario ("") = 0
    ∧ 0 ≤ densidad_vocabulario ("a b") ∧ densidad_vocabulario ("a b") ≤ 100 :=
  ⟨(density_formula ("a b") ("x")).1,
   (density_formula ("a b") ("x")).2.2.2.1 (by decide),
   (density_formula ("") ("x")).2.2.1 (by decide),
   (density_formula ("a b") ("x")).2.2.2.2⟩

/-- Claim C7: whenever JSON parsing of the cleaned LLM text, or its expansion
into the full Report, fails — a parse error, a non-object JSON value such as
an array, or a non-numeric percentage — `transformar_respuesta_gemini`
returns the Heuristic Scorer's output for the original text and level with
the flag false and a message describing the transformation failure; being a
total function, it never raises. -/
theorem transform_failure_falls_back (loads : String → Except String Json)
    (respuesta texto nivel_educativo : String) :
    (∀ e, transformarCore loads respuesta texto nivel_educativo = .error e →
      transformar_respuesta_gemini loads respuesta texto nivel_educativo =
        ((analisis_fallback texto nivel_educativo).toObj, false,
         ("Error transformando respuesta: ") ++ e))
    ∧ (∀ e, loads respuesta = .error e →
        transformarCore loads respuesta texto nivel_educativo = .error e)
    ∧ (∀ xs, loads respuesta = .ok (.arr xs) →
        transformarCore loads respuesta texto nivel_educativo = .error (attrErrMsg (.arr xs)))
    ∧ (∀ (fields : List (String × Json)) (s : String),
        loads respuesta = .ok (.obj fields) →
        dictGet fields ("porcentaje") (.num 50) = .str s →
        transformarCore loads respuesta texto nivel_educativo = .error (cmpErrMsg (.str s))) := by
  refine ⟨?_, ?_, ?_, ?_⟩
  · intro e h
    unfold transformar_respuesta_gemini
    rw [h]
  · intro e h
    unfold transformarCore
    rw [h]
  · intro xs h
    unfold transformarCore
    rw [h]
  · intro fields s h hs
    unfold transformarCore
    rw [h]
    simp only [hs, jsonToRat]

/-- A stub `json.loads` collaborator that fails to parse, carrying CPython's
message for unparseable input. -/
def loadsErr : String → Except String Json :=
  fun _ => .error ("Expecting value: line 1 column 1 (char 0)")

theorem transform_failure_falls_back_witness :
    transformar_respuesta_gemini loadsErr ("not json") ("t") ("n") =
      ((analisis_fallback ("t") ("n")).toObj, false,
       ("Error transformando respuesta: ") ++ ("Expecting value: line 1 column 1 (char 0)")) :=
  (transform_failure_falls_back loadsErr ("not json") ("t") ("n")).1
    ("Expecting value: line 1 column 1 (char 0)")
    ((transform_failure_falls_back loadsErr ("not json") ("t") ("n")).2.1
      ("Expecting value: line 1 column 1 (char 0)") rfl)

/-- Claim C2: with a configured API key, for every text, level and outcome of
the external LLM call — a raised exception, a `None` response, a response
without text, a `None` text or an all-whitespace text — the orchestrator
`analizar_con_gemini` (a total function: it never raises) returns the
Heuristic Scorer's report with the flag false and the classified failure
reason as message; for empty input it short-circuits the same way with
message Texto vacío; and the flag is true only when a present, non-blank LLM
response was successfully normalised. -/
theorem orchestrator_fallback_on_failure (loads : String → Except String Json)
    (api_key texto nivel_educativo : String) (outcome : GeminiOutcome)
    (hkey : ¬ (api_key = ("") ∨ api_key = ("tu_api_key_aqui"))) :
    (pyStrip texto = ("") →
      analizar_con_gemini loads api_key outcome texto nivel_educativo =
        ((analisis_fallback texto nivel_educativo).toObj, false, ("Texto vacío")))
    ∧ (pyStrip texto ≠ ("") →
      (∀ m, outcome = .raised m →
        analizar_con_gemini loads api_key outcome texto nivel_educativo =
          ((analisis_fallback texto nivel_educativo).toObj, false,
           diagnosticar_error_gemini m))
      ∧ (outcome = .respNone →
        analizar_con_gemini loads api_key outcome texto nivel_educativo =
          ((analisis_fallback texto nivel_educativo).toObj, false,
           ("Gemini devolvió respuesta vacía")))
      ∧ (outcome = .respNoText →
        analizar_con_gemini loads api_key outcome texto nivel_educativo =
          ((analisis_fallback texto nivel_educativo).toObj, false,
           ("Respuesta de Gemini no tiene texto")))
      ∧ (outcome = .textNone →
        analizar_con_gemini loads api_key outcome texto nivel_educativo =
          ((analisis_fallback texto nivel_educativo).toObj, false,
           ("Gemini devolvió respuesta vacía")))
      ∧ (∀ t, outcome = .text t → pyStrip t = ("") →
        analizar_con_gemini loads api_key outcome texto nivel_educativo =
          ((analisis_fallback texto nivel_educativo).toObj, false,
           ("Gemini devolvió respuesta vacía")))
      ∧ (∀ t e, outcome = .text t → pyStrip t ≠ ("") →
        transformarCore loads (limpiar_respuesta_gemini t) texto nivel_educativo = .error e →
        analizar_con_gemini loads api_key outcome texto nivel_educativo =
          ((analisis_fallback texto nivel_educativo).toObj, false,
           ("Error transformando respuesta: ") ++ e))
      ∧ ((analizar_con_gemini loads api_key outcome texto nivel_educativo).2.1 = true →
        ∃ t dict, outcome = .text t
          ∧ transformarCore loads (limpiar_respuesta_gemini t) texto nivel_educativo = .ok dict
          ∧ analizar_con_gemini loads api_key outcome texto nivel_educativo =
              (dict, true, ("Análisis exitoso con IA")))) := by
  constructor
  · intro h
    simp [analizar_con_gemini, h]
  · intro hne
    refine ⟨?_, ?_, ?_, ?_, ?_, ?_, ?_⟩
    · intro m h
      subst h
      simp [analizar_con_gemini, hne, hkey]
    · intro h
      subst h
      simp [analizar_con_gemini, hne, hkey]
    · intro h
      subst h
      simp [analizar_con_gemini, hne, hkey]
    · intro h
      subst h
      simp [analizar_con_gemini, hne, hkey]
    · intro t h hts
      subst h
      simp [analizar_con_gemini, hne, hkey, hts]
    · intro t e h hts hcore
      subst h
      have htne : ¬ (t = ("") ∨ pyStrip t = ("")) := by
        rintro (rfl | h)
        · exact hts rfl
        · exact hts h
      simp only [analizar_con_gemini, hne, hkey, htne, if_false, ite_false,
        if_neg, not_false_iff]
      unfold transformar_respuesta_gemini
      rw [hcore]
    · intro hflag
      cases outcome with
      | raised m => simp [analizar_con_gemini, hne, hkey] at hflag
      | respNone => simp [analizar_con_gemini, hne, hkey] at hflag
      | respNoText => simp [analizar_con_gemini, hne, hkey] at hflag
      | textNone => simp [analizar_con_gemini, hne, hkey] at hflag
      | text t =>
        by_cases hts : (t = ("") ∨ pyStrip t = (""))
        · simp [analizar_con_gemini, hne, hkey, hts] at hflag
        · simp only [analizar_con_gemini, hne, hkey, hts, if_false, ite_false,
            if_neg, not_false_iff] at hflag ⊢
          rcases hcore : transformarCore loads (limpiar_respuesta_gemini t) texto nivel_educativo
            with e | dict
          · rw [transformar_respuesta_gemini, hcore] at hflag
            simp at hflag
          · refine ⟨t, dict, rfl, hcore, ?_⟩
            rw [transformar_respuesta_gemini, hcore]

theorem orchestrator_fallback_witness :
    analizar_con_gemini loadsErr ("clave-valida") .respNone ("hola mundo") ("superior") =
      ((analisis_fallback ("hola mundo") ("superior")).toObj, false,
       ("Gemini devolvió respuesta vacía")) :=
  ((orchestrator_fallback_on_failure loadsErr ("clave-valida") ("hola mundo") ("superior")
      .respNone (by decide)).2 (by decide)).2.1 rfl

/-- Claim C6 counterexample: on a fenced response with a fence marker in the
middle of the payload, the source function removes the interior marker too
(Python `str.replace` replaces every occurrence), so it differs from the
claim's description, which strips only a leading and a trailing marker. -/
theorem limpiar_strips_interior_fences :
    limpiar_respuesta_gemini ("```json\x7b\"a\": \"x``` y\"\x7d```")
      ≠ limpiarClaimReading ("```json\x7b\"a\": \"x``` y\"\x7d```") := by
  decide

/-- Claim C6 as amended: empty input yields empty output; input not starting
with the JSON fence marker undergoes only the trim and the
backslash-n/backslash-t unescape; input starting with the JSON fence marker
first has every occurrence of the marker pair removed (left to right,
non-overlapping — not only the leading/trailing ones), then is trimmed and
unescaped. -/
theorem limpiar_description (s : String) :
    (s = ("") → limpiar_respuesta_gemini s = (""))
    ∧ (s ≠ ("") → pyStartsWith s ("```json") = false →
        limpiar_respuesta_gemini s =
          pyReplace (pyReplace (pyStrip s) ("\\n") ("\n")) ("\\t") ("\t"))
    ∧ (s ≠ ("") → pyStartsWith s ("```json") = true →
        limpiar_respuesta_gemini s =
          pyReplace (pyReplace
            (pyStrip (pyReplace (pyReplace s ("```json") ("")) ("```") ("")))
            ("\\n") ("\n")) ("\\t") ("\t")) := by
  refine ⟨?_, ?_, ?_⟩
  · intro h
    simp [limpiar_respuesta_gemini, h]
  · intro h hf
    simp [limpiar_respuesta_gemini, h, hf]
  · intro h hf
    simp [limpiar_respuesta_gemini, h, hf]

theorem limpiar_description_witness :
    limpiar_respuesta_gemini ((" hola ")) =
      pyReplace (pyReplace (pyStrip ((" hola "))) ("\\n") ("\n")) ("\\t") ("\t") :=
  (limpiar_description ((" hola "))).2.1 (by decide) (by decide)

/-- Claim C8: any request with a missing file or empty filename, a missing or
empty education level, an extension outside the allow-list, or a size above
10 MiB gets a 400 response with one of the four specific validation
messages, and the analysis pipeline is never invoked: the response is the
same whatever the extracted text, API key, JSON parser and LLM outcome. -/
theorem validation_rejects (req : UploadReq)
    (h : req.file = none
      ∨ (∃ size, req.file = some (("") , size))
      ∨ (∃ f size, req.file = some (f, size) ∧ allowed_file f = false)
      ∨ (∃ f size, req.file = some (f, size) ∧ MAX_FILE_SIZE < size)
      ∨ req.nivel = none ∨ req.nivel = some ("")) :
    ∃ msg,
      msg ∈ [("No se seleccionó ningún archivo"),
             ("Por favor selecciona un nivel educativo"),
             ("Tipo de archivo no permitido. Use .txt, .docx, .pdf, .jpg, .png"),
             ("Archivo demasiado grande. Máximo 10MB")]
      ∧ ∀ (texto api_key : String) (loads : String → Except String Json)
          (outcome : GeminiOutcome),
          analizar req texto api_key loads outcome = errResp 400 msg := by
  obtain ⟨file, nivel⟩ := req
  cases file with
  | none =>
    exact ⟨("No se seleccionó ningún archivo"), by decide,
      fun texto api_key loads outcome => by simp [analizar]⟩
  | some fs =>
    obtain ⟨f, size⟩ := fs
    by_cases hf : f = ("")
    · subst hf
      exact ⟨("No se seleccionó ningún archivo"), by decide,
        fun texto api_key loads outcome => by simp [analizar]⟩
    · cases nivel with
      | none =>
        exact ⟨("Por favor selecciona un nivel educativo"), by decide,
          fun texto api_key loads outcome => by simp [analizar, hf]⟩
      | some n =>
        by_cases hn : n = ("")
        · subst hn
          exact ⟨("Por favor selecciona un nivel educativo"), by decide,
            fun texto api_key loads outcome => by simp [analizar, hf]⟩
        · by_cases ha : allowed_file f = true
          · have hsize : MAX_FILE_SIZE < size := by
              rcases h with h | ⟨s, hs⟩ | ⟨f', s, hfs, hbad⟩ | ⟨f', s, hfs, hsz⟩ | h | h
              · exact absurd h (by simp)
              · rw [Option.some.injEq, Prod.mk.injEq] at hs
                exact absurd hs.1 hf
              · rw [Option.some.injEq, Prod.mk.injEq] at hfs
                rw [hfs.1] at ha
                rw [ha] at hbad
                cases hbad
              · rw [Option.some.injEq, Prod.mk.injEq] at hfs
                rw [hfs.2]
                exact hsz
              · exact absurd h (by simp)
              · rw [Option.some.injEq] at h
                exact absurd h hn
            exact ⟨("Archivo demasiado grande. Máximo 10MB"), by decide,
              fun texto api_key loads outcome => by simp [analizar, hf, hn, ha, hsize]⟩
          · exact ⟨("Tipo de archivo no permitido. Use .txt, .docx, .pdf, .jpg, .png"),
              by decide,
              fun texto api_key loads outcome => by simp [analizar, hf, hn, ha]⟩

theorem validation_rejects_witness :
    ∃ msg,
      msg ∈ [("No se seleccionó ningún archivo"),
             ("Por favor selecciona un nivel educativo"),
             ("Tipo de archivo no permitido. Use .txt, .docx, .pdf, .jpg, .png"),
             ("Archivo demasiado grande. Máximo 10MB")]
      ∧ analizar ⟨none, some ("superior")⟩ ("texto") ("clave") loadsErr .respNone =
          errResp 400 msg := by
  obtain ⟨msg, hmem, hall⟩ :=
    validation_rejects ⟨none, some ("superior")⟩ (Or.inl rfl)
  exact ⟨msg, hmem, hall ("texto") ("clave") loadsErr .respNone⟩

/-- In every successful `transformarCore` dict the label value is a string
(the tier label), whatever lookup default is used. -/
theorem transformarCore_ok_label (loads : String → Except String Json)
    (respuesta texto nivel_educativo : String) (dict : List (String × Json))
    (h : transformarCore loads respuesta texto nivel_educativo = .ok dict) (d : Json) :
    ∃ s, dictGet dict ("label") d = .str s := by
  unfold transformarCore at h
  split at h
  · exact absurd h (by simp)
  split at h
  · simp only [] at h
    split at h
    · exact absurd h (by simp)
    rw [Except.ok.injEq] at h
    subst h
    exact ⟨_, rfl⟩
  · exact absurd h (by simp)

/-- The label entry of whatever dict the orchestrator returns is always a
string, so the handler's `label.capitalize()` never raises. -/
theorem orchestrator_label_str (loads : String → Except String Json)
    (api_key : String) (outcome : GeminiOutcome) (texto nivel_educativo : String) (d : Json) :
    ∃ s, dictGet (analizar_con_gemini loads api_key outcome texto nivel_educativo).1
          ("label") d = .str s := by
  unfold analizar_con_gemini
  split_ifs with h1 h2
  · exact ⟨_, rfl⟩
  · exact ⟨_, rfl⟩
  · cases outcome with
    | raised m => exact ⟨_, rfl⟩
    | respNone => exact ⟨_, rfl⟩
    | respNoText => exact ⟨_, rfl⟩
    | textNone => exact ⟨_, rfl⟩
    | text t =>
      dsimp only
      split_ifs with h3
      · exact ⟨_, rfl⟩
      · unfold transformar_respuesta_gemini
        rcases hcore : transformarCore loads (limpiar_respuesta_gemini t) texto nivel_educativo
          with e | dict
        · exact ⟨_, rfl⟩
        · exact transformarCore_ok_label loads (limpiar_respuesta_gemini t) texto
            nivel_educativo dict hcore d

/-- Claim C1 as amended: for a validated request, on the three orchestrated
paths (LLM success, LLM failure, malformed LLM JSON) the outward response is
a 200 whose JSON object has exactly the twelve Report fields of spec §3 in
order; but on the empty-extracted-text path the response, while a 200, has
only eight of them, omitting nivel_educativo, longitud_texto,
palabras_unicas and densidad_vocabulario. -/
theorem report_fields_by_path (f : String) (size : ℕ) (n texto api_key : String)
    (loads : String → Except String Json) (outcome : GeminiOutcome)
    (hf : f ≠ ("")) (hn : n ≠ (""))
    (ha : allowed_file f = true) (hsize : ¬ MAX_FILE_SIZE < size) :
    (texto = ("") →
      analizar ⟨some (f, size), some n⟩ texto api_key loads outcome =
        .json 200 (notDetectedBody f)
      ∧ respFields (analizar ⟨some (f, size), some n⟩ texto api_key loads outcome) =
          [("porcentaje"), ("color"), ("label"), ("indicadores"), ("preguntas"),
           ("filename"), ("analizado_con_ia"), ("error_info")])
    ∧ (texto ≠ ("") →
      respStatus (analizar ⟨some (f, size), some n⟩ texto api_key loads outcome) = 200
      ∧ respFields (analizar ⟨some (f, size), some n⟩ texto api_key loads outcome) =
          reportKeys) := by
  constructor
  · intro ht
    subst ht
    have hmain : analizar ⟨some (f, size), some n⟩ ("") api_key loads outcome =
        .json 200 (notDetectedBody f) := by
      simp [analizar, analizarProcess, hf, hn, ha, hsize]
    refine ⟨hmain, ?_⟩
    rw [hmain]
    rfl
  · intro ht
    obtain ⟨s, hs⟩ := orchestrator_label_str loads api_key outcome texto n (.str ("medio"))
    have hmain : analizar ⟨some (f, size), some n⟩ texto api_key loads outcome =
        .json 200
          [(("porcentaje"),
            dictGet (analizar_con_gemini loads api_key outcome texto n).1 ("porcentaje") (.num 50)),
           (("color"),
            dictGet (analizar_con_gemini loads api_key outcome texto n).1 ("color") (.str ("gray"))),
           (("label"), .str (pyCapitalize s)),
           (("indicadores"),
            dictGet (analizar_con_gemini loads api_key outcome texto n).1 ("indicadores") (.arr [])),
           (("preguntas"),
            dictGet (analizar_con_gemini loads api_key outcome texto n).1 ("preguntas") (.arr [])),
           (("filename"), .str f),
           (("analizado_con_ia"), .bool (analizar_con_gemini loads api_key outcome texto n).2.1),
           (("nivel_educativo"), .str n),
           (("error_info"), .str (analizar_con_gemini loads api_key outcome texto n).2.2),
           (("longitud_texto"),
            dictGet (analizar_con_gemini loads api_key outcome texto n).1 ("longitud_texto") (.num 0)),
           (("palabras_unicas"),
            dictGet (analizar_con_gemini loads api_key outcome texto n).1 ("palabras_unicas") (.num 0)),
           (("densidad_vocabulario"),
            dictGet (analizar_con_gemini loads api_key outcome texto n).1 ("densidad_vocabulario") (.num 0))] := by
      simp only [analizar, analizarProcess, hf, hn, ha, hsize, ht, if_true, if_false,
        ite_true, ite_false, if_neg, not_false_iff]
      rw [hs]
      rfl
    refine ⟨?_, ?_⟩
    · rw [hmain]
      rfl
    · rw [hmain]
      rfl

/-- A stub `json.loads` whose parse yields an LLM object that explicitly set
`indicadores` to JSON null. -/
def loadsNullInd : String → Except String Json :=
  fun _ => .ok (.obj [(("indicadores"), .null)])

/-- Claim C1 counterexample: (a) on the empty-extracted-text path the
outward object omits the nivel_educativo field (along with longitud_texto,
palabras_unicas and densidad_vocabulario); (b) on an LLM-success path whose
JSON carried a null indicadores, the outward object holds null for that
field.  Both contradict "every Report field present, none omitted or
null". -/
theorem report_fields_counterexample :
    (("nivel_educativo") ∉ respFields
      (analizar ⟨some (("a.txt"), 3), some ("superior")⟩ ("") ("clave") loadsErr .respNone))
    ∧ dictGet (respBody
        (analizar ⟨some (("a.txt"), 3), some ("superior")⟩ ("hola") ("clave")
          loadsNullInd (.text ("x")))) ("indicadores") (.arr []) = .null := by
  constructor
  · decide
  · rfl

theorem report_fields_by_path_witness :
    analizar ⟨some (("a.txt"), 3), some ("superior")⟩ ("") ("clave") loadsErr .respNone =
      .json 200 (notDetectedBody ("a.txt"))
    ∧ respFields
        (analizar ⟨some (("a.txt"), 3), some ("superior")⟩ ("") ("clave") loadsErr .respNone) =
        [("porcentaje"), ("color"), ("label"), ("indicadores"), ("preguntas"),
         ("filename"), ("analizado_con_ia"), ("error_info")] :=
  (report_fields_by_path ("a.txt") 3 ("superior") ("") ("clave") loadsErr .respNone
    (by decide) (by decide) (by decide) (by decide)).1 rfl
